import Mathlib

/-!
Verification of the cryptomaxa signal lifecycle engine.

This file gives a shallow embedding of the core of the repository:
the execution state machine (`src/signal_analyzer/validator.py`), the
confidence annotator (same file), the response parser
(`src/api_client/response_parser.py`), the deduplication / upsert engine
(`src/signal_analyzer/processor.py`) and the scheduler ledger
(`src/scheduler/tasks.py`).

Modelling conventions:
- Python floats and SQL `Numeric` columns are modelled as rationals `ℚ`
  (the code only compares and copies them, never does float-specific
  arithmetic);
- nullable columns and optional dict entries are `Option`;
- Python truthiness of a float is `v != 0`, of `None` it is false, of a
  string it is nonemptiness, of a list or dict it is nonemptiness;
- timestamps (`datetime.utcnow()`, `created_at`) are minutes since an
  arbitrary epoch, as `Int`; the 30 minute freshness window of
  `_find_existing_signal` becomes `now - 30 ≤ created_at`.
-/

namespace Cryptomaxa

/-- A persisted signal row: the SQLAlchemy model `Signal` of
`src/database/models.py`.  Field names and defaults follow the model
(`status` defaults to `"new"`, `is_main_signal` to `True`). -/
structure SignalRow where
  ticker : String
  timeframe : String
  signal_type : String
  entry_price : ℚ
  take_profit : Option ℚ := none
  stop_loss : Option ℚ := none
  confidence : Option ℚ := none
  risk_reward : Option ℚ := none
  current_price : Option ℚ := none
  status : String := "new"
  is_main_signal : Bool := true
  correction_type : Option String := none
  correction_entry : Option ℚ := none
  correction_tp : Option ℚ := none
  correction_sl : Option ℚ := none
  correction_confidence : Option ℚ := none
  created_at : Int := 0
  deriving Repr, DecidableEq

/-- Python `str.upper()` (over the character list; the identifiers that
reach it are ASCII). -/
def pyUpper (s : String) : String :=
  String.mk (s.data.map Char.toUpper)

/-- Python `str.strip()`: whitespace removed from both ends. -/
def pyStrip (s : String) : String :=
  String.mk (((s.data.dropWhile Char.isWhitespace).reverse.dropWhile Char.isWhitespace).reverse)

/-- Python truthiness of an optional numeric value: `None` and `0.0` are
falsy, every other float is truthy. -/
def optTruthy (x : Option ℚ) : Bool :=
  match x with
  | none => false
  | some v => decide (v ≠ 0)

/-- The idiom `float(x) if x else None` applied to an optional numeric
value: `None` and `0.0` collapse to `None`. -/
def floatIfTruthy (x : Option ℚ) : Option ℚ :=
  if optTruthy x then x else none

/-- `SignalValidator._check_entry_execution` of
`src/signal_analyzer/validator.py`: LONG entry fills at
`current_price <= entry_price`, SHORT at `current_price >= entry_price`,
any other signal type returns `False`. -/
def checkEntryExecution (signal_type : String) (current_price entry_price : ℚ) : Bool :=
  if signal_type = "LONG" then decide (current_price ≤ entry_price)
  else if signal_type = "SHORT" then decide (entry_price ≤ current_price)
  else false

/-- `SignalValidator._check_take_profit_execution`: LONG fires at
`current_price >= take_profit`, SHORT at `current_price <= take_profit`. -/
def checkTakeProfitExecution (signal_type : String) (current_price take_profit : ℚ) : Bool :=
  if signal_type = "LONG" then decide (take_profit ≤ current_price)
  else if signal_type = "SHORT" then decide (current_price ≤ take_profit)
  else false

/-- `SignalValidator._check_stop_loss_execution`: LONG fires at
`current_price <= stop_loss`, SHORT at `current_price >= stop_loss`. -/
def checkStopLossExecution (signal_type : String) (current_price stop_loss : ℚ) : Bool :=
  if signal_type = "LONG" then decide (current_price ≤ stop_loss)
  else if signal_type = "SHORT" then decide (stop_loss ≤ current_price)
  else false

/-- `SignalValidator._check_signal_execution`: maps a signal row and the
current price to the next status.  The conversions
`float(signal.take_profit) if signal.take_profit else None` and the
guards `if stop_loss:` / `if take_profit:` use Python truthiness, hence
`floatIfTruthy` and the `match` on the converted option. -/
def checkSignalExecution (signal : SignalRow) (current_price : ℚ) : String :=
  let entry_price := signal.entry_price
  let signal_type := pyUpper signal.signal_type
  let take_profit := floatIfTruthy signal.take_profit
  let stop_loss := floatIfTruthy signal.stop_loss
  if signal.status = "new" then
    if checkEntryExecution signal_type current_price entry_price then "entry_hit"
    else "new"
  else if signal.status = "entry_hit" ∨ signal.status = "active" then
    let stop_hit := match stop_loss with
      | some sl => checkStopLossExecution signal_type current_price sl
      | none => false
    let take_hit := match take_profit with
      | some tp => checkTakeProfitExecution signal_type current_price tp
      | none => false
    if stop_hit then "sl_hit"
    else if take_hit then "tp_hit"
    else "active"
  else signal.status

/-- The stop-loss condition exactly as the specification words it:
for LONG, `price <= stop_loss`; for SHORT, `price >= stop_loss`. -/
def slCondition (signal_type : String) (current_price stop_loss : ℚ) : Prop :=
  (signal_type = "LONG" ∧ current_price ≤ stop_loss) ∨
  (signal_type = "SHORT" ∧ stop_loss ≤ current_price)

/-- The take-profit condition exactly as the specification words it:
for LONG, `price >= take_profit`; for SHORT, `price <= take_profit`. -/
def tpCondition (signal_type : String) (current_price take_profit : ℚ) : Prop :=
  (signal_type = "LONG" ∧ take_profit ≤ current_price) ∨
  (signal_type = "SHORT" ∧ current_price ≤ take_profit)

/-- A correction sub-record carried inside a parsed observation dict
(the `correction` key read by `SignalProcessor`).  `tp` is a list; the
processor only ever uses its first element.  An absent or empty
`correction` dict is `none` at the use sites (both are falsy). -/
structure CorrectionData where
  direction : Option String := none
  entry : Option ℚ := none
  tp : List ℚ := []
  sl : Option ℚ := none
  confidence : Option ℚ := none
  deriving Repr, DecidableEq

/-- A parsed observation: the dict built by
`SignalDataParser._parse_single_signal` (plus the `signal_category` key
added by `_parse_timeframe_item` and the `correction` key read by the
processor).  `current_price` is always set by the parser (falling back
to `entry_price`), so it is not optional here. -/
structure SignalData where
  ticker : String
  timeframe : String
  signal_type : String
  entry_price : ℚ
  take_profit : Option ℚ := none
  stop_loss : Option ℚ := none
  confidence : Option ℚ := none
  risk_reward : Option ℚ := none
  current_price : ℚ
  status : String := "new"
  created_at : Int := 0
  signal_category : Option String := none
  correction : Option CorrectionData := none
  deriving Repr, DecidableEq

/-- One advisory warning dict produced by `ConfidenceAnalyzer`
(`type` / `message` / `severity` keys; `type` is called `wtype` here
because `type` is reserved in Lean). -/
structure Warning where
  wtype : String
  message : String
  severity : String
  deriving Repr, DecidableEq

/-- An annotated observation: `signal.copy()` with a `warnings` list
attached (`analyzed_signal['warnings'] = warnings`).  All original keys
are carried unchanged in `data`. -/
structure AnalyzedSignal where
  data : SignalData
  warnings : List Warning
  deriving Repr, DecidableEq

/-- `ConfidenceAnalyzer.HIGH_CONFIDENCE_THRESHOLD`. -/
def HIGH_CONFIDENCE_THRESHOLD : ℚ := 90

/-- `ConfidenceAnalyzer.LOW_CONFIDENCE_THRESHOLD`. -/
def LOW_CONFIDENCE_THRESHOLD : ℚ := 50

/-- `ConfidenceAnalyzer._check_trend_conflict`: reads
`signal.get('confidence', 0)` and returns the placeholder
`potential_trend_conflict` warning exactly when `confidence > 95.0`. -/
def checkTrendConflict (signal : SignalData) : Option Warning :=
  let confidence := signal.confidence.getD 0
  if 95 < confidence then
    some { wtype := "potential_trend_conflict",
           message := "⚠️ Возможный сигнал против тренда (требует проверки)",
           severity := "warning" }
  else none

/-- The loop body of `ConfidenceAnalyzer.analyze_confidence_warnings`:
copy the signal and attach a `warnings` list.  When `confidence` is not
`None`: `confidence >= 90` appends `high_confidence`, otherwise
(`elif`) `confidence < 50` appends `low_confidence`; then
`_check_trend_conflict` may append `potential_trend_conflict`.  Unknown
confidence yields an empty warnings list. -/
def analyzeOneSignal (signal : SignalData) : AnalyzedSignal :=
  let warnings : List Warning :=
    match signal.confidence with
    | some confidence =>
      let thresholdWarnings :=
        if HIGH_CONFIDENCE_THRESHOLD ≤ confidence then
          [{ wtype := "high_confidence",
             message := "⚠️ Высокий confidence: " ++ toString confidence ++ "% (опасность)",
             severity := "warning" : Warning }]
        else if confidence < LOW_CONFIDENCE_THRESHOLD then
          [{ wtype := "low_confidence",
             message := "⚠️ Слабый сигнал: " ++ toString confidence ++ "%",
             severity := "info" : Warning }]
        else []
      let trendWarnings :=
        match checkTrendConflict signal with
        | some w => [w]
        | none => []
      thresholdWarnings ++ trendWarnings
    | none => []
  { data := signal, warnings := warnings }

/-- `ConfidenceAnalyzer.analyze_confidence_warnings`: map the loop body
over the input sequence, preserving length and order. -/
def analyzeConfidenceWarnings (signals : List SignalData) : List AnalyzedSignal :=
  signals.map analyzeOneSignal

/-- A JSON-like value inside an upstream API payload.  Numeric values
(including numeric strings, which `float()` parses) are `vnum`; `float`
of any other value raises, which the parser catches.  `vnull` is a key
present with value `None`. -/
inductive RawVal where
  | vstr : String → RawVal
  | vnum : ℚ → RawVal
  | vnull : RawVal
  | vdict : List (String × RawVal) → RawVal

/-- A JSON-like object: an ordered key/value list (Python dict). -/
abbrev RawDict := List (String × RawVal)

/-- Python `d[k]` lookup returning `none` when the key is absent. -/
def dictGet (d : RawDict) (k : String) : Option RawVal :=
  (d.find? (fun kv => kv.fst == k)).map (fun kv => kv.snd)

/-- Python `k in d`. -/
def hasKey (d : RawDict) (k : String) : Bool :=
  (dictGet d k).isSome

/-- Python `d[k] = v`: overwrite the existing entry or append a new one. -/
def dictSet (d : RawDict) (k : String) (v : RawVal) : RawDict :=
  if (d.find? (fun kv => kv.fst == k)).isSome then
    d.map (fun kv => if kv.fst == k then (k, v) else kv)
  else d ++ [(k, v)]

/-- Python truthiness of a raw value (`if not signal_type:`): empty
string, zero, `None` and the empty dict are falsy. -/
def rawTruthy : RawVal → Bool
  | .vstr s => s ≠ ""
  | .vnum q => decide (q ≠ 0)
  | .vnull => false
  | .vdict d => !d.isEmpty

/-- Python `str(value)`.  Integral numbers render like Python ints
(`str(1)` is `"1"`), which is what the upstream JSON carries for the
numeric direction encodings `1` / `-1`. -/
def rawToString : RawVal → String
  | .vstr s => s
  | .vnum q => toString q
  | .vnull => "None"
  | .vdict _ => "<dict>"

/-- `SignalDataParser._extract_field`: probe the alias keys in order and
return the first value that is present and not `None`; otherwise the
default. -/
def extractField (data : RawDict) (possibleKeys : List String)
    (default : Option RawVal) : Option RawVal :=
  match possibleKeys with
  | [] => default
  | key :: rest =>
    match dictGet data key with
    | some .vnull => extractField data rest default
    | some v => some v
    | none => extractField data rest default

/-- `SignalDataParser._extract_numeric_field`: `float(value)` of the
extracted value, with `ValueError`/`TypeError` swallowed to `None`. -/
def extractNumericField (data : RawDict) (possibleKeys : List String) : Option ℚ :=
  match extractField data possibleKeys none with
  | some (.vnum q) => some q
  | _ => none

/-- `SignalDataParser._normalize_signal_type`: falsy input is `HOLD`;
otherwise `str(...).upper().strip()` is matched against the LONG and
SHORT alias lists, defaulting to `HOLD`. -/
def normalizeSignalType (signal_type : RawVal) : String :=
  if !rawTruthy signal_type then "HOLD"
  else
    let s := pyStrip (pyUpper (rawToString signal_type))
    if s ∈ ["LONG", "BUY", "1", "UP", "BULL", "BULLISH"] then "LONG"
    else if s ∈ ["SHORT", "SELL", "-1", "DOWN", "BEAR", "BEARISH"] then "SHORT"
    else "HOLD"

/-- `SignalDataParser._parse_single_signal`: extract the aliased fields,
normalize the type, reject a falsy `entry_price` (`if not entry_price:`,
so a missing or zero entry) and a type outside LONG/SHORT/HOLD (which
`_normalize_signal_type` in fact never produces), then build the result
dict.  `now` stands for `datetime.utcnow()`. -/
def parseSingleSignal (data : RawDict) (ticker timeframe : String) (now : Int) :
    Option SignalData :=
  let signal_type_raw :=
    extractField data ["type", "signal", "signal_type", "direction", "side"]
      (some (.vstr "HOLD"))
  let entry_price := extractNumericField data ["entry", "entry_price", "price"]
  let take_profit := extractNumericField data ["tp", "take_profit", "target", "take"]
  let stop_loss := extractNumericField data ["sl", "stop_loss", "stop", "stoploss"]
  let confidence := extractNumericField data ["confidence", "prob", "probability", "conf"]
  let current_price := extractNumericField data ["current_price", "price", "current", "last_price"]
  let risk_reward := extractNumericField data ["risk_reward", "rr", "risk_to_reward", "r_r"]
  let signal_type := normalizeSignalType (signal_type_raw.getD (.vstr "HOLD"))
  if !optTruthy entry_price then none
  else if signal_type ∉ (["LONG", "SHORT", "HOLD"] : List String) then none
  else
    match entry_price with
    | none => none
    | some e =>
      some { ticker := ticker
             timeframe := timeframe
             signal_type := signal_type
             entry_price := e
             take_profit := floatIfTruthy take_profit
             stop_loss := floatIfTruthy stop_loss
             confidence := floatIfTruthy confidence
             risk_reward := floatIfTruthy risk_reward
             current_price := match current_price with
               | some c => if c = 0 then e else c
               | none => e
             status := "new"
             created_at := now }

/-- Body of `SignalDataParser._parse_timeframe_item` inside its `try`:
`none` models a raised exception (for example `.copy()` on a non-dict
`main_signal` value), which the `except` turns into `[]`. -/
def parseTimeframeItemCore (item : RawDict) (ticker timeframe : String) (now : Int) :
    Option (List SignalData) := do
  let signals1 ←
    if hasKey item "main_signal" then do
      let msd ← match (dictGet item "main_signal").getD .vnull with
        | .vdict d => some d
        | _ => none
      let msd := dictSet msd "current_price" ((dictGet item "current_price").getD .vnull)
      pure (match parseSingleSignal msd ticker timeframe now with
        | some ps => [{ ps with signal_category := some "main" }]
        | none => [])
    else pure []
  let signals2 ←
    if hasKey item "correction_signal" then do
      let csd ← match (dictGet item "correction_signal").getD .vnull with
        | .vdict d => some d
        | _ => none
      let csd := dictSet csd "current_price" ((dictGet item "current_price").getD .vnull)
      pure (match parseSingleSignal csd ticker timeframe now with
        | some ps => [{ ps with signal_category := some "correction" }]
        | none => [])
    else pure []
  let signals := signals1 ++ signals2
  if signals.isEmpty then
    pure (match parseSingleSignal item ticker timeframe now with
      | some ps => [{ ps with signal_category := some "main" }]
      | none => [])
  else pure signals

/-- `SignalDataParser._parse_timeframe_item` with its `except` clause:
an exception inside the body yields `[]`. -/
def parseTimeframeItem (item : RawDict) (ticker timeframe : String) (now : Int) :
    List SignalData :=
  (parseTimeframeItemCore item ticker timeframe now).getD []

/-- `item.get('timeframe', '1h')` as used by `parse_signal_response`
for list-shaped payloads (the value is a string upstream). -/
def itemTimeframe (item : RawDict) : String :=
  match dictGet item "timeframe" with
  | some (.vstr tf) => tf
  | _ => "1h"

/-- The signals contributed by one element of a list-shaped payload:
dict elements go through `_parse_timeframe_item`, anything else is
skipped (`isinstance(item, dict)`). -/
def itemSignals (item : RawVal) (ticker : String) (now : Int) : List SignalData :=
  match item with
  | .vdict d => parseTimeframeItem d ticker (itemTimeframe d) now
  | _ => []

/-- `SignalDataParser.parse_signal_response` for a list-shaped payload
(variant 1 in the source): an empty payload raises `ValidationError`,
otherwise each dict element extends the result list. -/
def parseSignalResponse (data : List RawVal) (ticker : String) (now : Int) :
    Except String (List SignalData) :=
  if data.isEmpty then .error "Пустой ответ от API"
  else .ok (data.foldl (fun signals item => signals ++ itemSignals item ticker now) [])

/-- The statuses `_find_existing_signal` (and `get_active_signals`)
accept as not yet terminally resolved. -/
def activeStatuses : List String := ["new", "entry_hit", "active"]

/-- The filter of `SignalProcessor._find_existing_signal`: same ticker
and timeframe, `created_at` within the last 30 minutes and a status in
`{new, entry_hit, active}`.  The observation category is not part of the
filter (the source reads `signal_category` into a local that the query
never uses). -/
def signalMatchesLookup (now : Int) (ticker timeframe : String) (row : SignalRow) : Bool :=
  row.ticker == ticker && row.timeframe == timeframe &&
  decide (now - 30 ≤ row.created_at) && decide (row.status ∈ activeStatuses)

/-- `SignalProcessor._find_existing_signal`: `.first()` over the store
 restricted by `signalMatchesLookup` (first matching row in store
order; the query has no `order_by`). -/
def findExistingSignal (store : List SignalRow) (now : Int) (signal_data : SignalData) :
    Option SignalRow :=
  let ticker := signal_data.ticker
  let timeframe := signal_data.timeframe
  store.find? (signalMatchesLookup now ticker timeframe)

/-- The `current_price` block of `SignalProcessor._update_existing_signal`:
`if new_current_price and new_current_price != existing.current_price`
(Python truthiness, so a zero price never updates).  The state is the
pair `(row, updated)` threaded through the blocks. -/
def updCurrentPrice (signal_data : SignalData) (st : SignalRow × Bool) :
    SignalRow × Bool :=
  let new_current_price := signal_data.current_price
  if new_current_price ≠ 0 ∧ some new_current_price ≠ st.1.current_price then
    ({ st.1 with current_price := some new_current_price }, true)
  else st

/-- The `confidence` block of `_update_existing_signal`:
`if new_confidence and new_confidence != existing.confidence`. -/
def updConfidence (signal_data : SignalData) (st : SignalRow × Bool) :
    SignalRow × Bool :=
  match signal_data.confidence with
  | some c =>
    if c ≠ 0 ∧ some c ≠ st.1.confidence then
      ({ st.1 with confidence := some c }, true)
    else st
  | none => st

/-- The `correction_type` comparison of the correction block. -/
def updCorrType (corr : CorrectionData) (st : SignalRow × Bool) : SignalRow × Bool :=
  if corr.direction ≠ st.1.correction_type then
    ({ st.1 with correction_type := corr.direction }, true)
  else st

/-- The `correction_entry` comparison of the correction block. -/
def updCorrEntry (corr : CorrectionData) (st : SignalRow × Bool) : SignalRow × Bool :=
  if corr.entry ≠ st.1.correction_entry then
    ({ st.1 with correction_entry := corr.entry }, true)
  else st

/-- The `correction_tp` comparison of the correction block:
`if correction_data.get('tp') and len(...) > 0` probes the list for
nonemptiness, then compares its first element. -/
def updCorrTp (corr : CorrectionData) (st : SignalRow × Bool) : SignalRow × Bool :=
  match corr.tp with
  | [] => st
  | t :: _ =>
    if some t ≠ st.1.correction_tp then
      ({ st.1 with correction_tp := some t }, true)
    else st

/-- The `correction_sl` comparison of the correction block (plain `!=`,
no truthiness guard in the source). -/
def updCorrSl (corr : CorrectionData) (st : SignalRow × Bool) : SignalRow × Bool :=
  if corr.sl ≠ st.1.correction_sl then
    ({ st.1 with correction_sl := corr.sl }, true)
  else st

/-- The `correction_confidence` comparison of the correction block. -/
def updCorrConf (corr : CorrectionData) (st : SignalRow × Bool) : SignalRow × Bool :=
  if corr.confidence ≠ st.1.correction_confidence then
    ({ st.1 with correction_confidence := corr.confidence }, true)
  else st

/-- The whole correction block of `_update_existing_signal`, guarded by
`if correction_data:` (an absent or empty correction payload is `none`).
The `hasattr(existing_signal, 'correction_type')` probe is always true
for the model of `src/database/models.py`. -/
def updCorrection (signal_data : SignalData) (st : SignalRow × Bool) :
    SignalRow × Bool :=
  match signal_data.correction with
  | none => st
  | some corr => updCorrConf corr (updCorrSl corr (updCorrTp corr
      (updCorrEntry corr (updCorrType corr st))))

/-- `SignalProcessor._update_existing_signal`: starting from
`(existing, False)`, run the `current_price`, `confidence` and
correction blocks in source order and return the final row together
with the `updated` flag. -/
def updateExistingSignal (existing : SignalRow) (signal_data : SignalData) :
    SignalRow × Bool :=
  updCorrection signal_data (updConfidence signal_data
    (updCurrentPrice signal_data (existing, false)))

/-- `SignalProcessor._create_new_signal`: build the row from the
observation with `status = 'new'` and `is_main_signal = True`, adding
the correction sub-record when present (first take-profit value only).
The `None` values stripped from `create_data` correspond to `Option`
fields left at `none` (the column defaults).  `now` stands for the
`created_at` column default `datetime.utcnow()`. -/
def createNewSignal (now : Int) (signal_data : SignalData) : SignalRow :=
  let base : SignalRow :=
    { ticker := signal_data.ticker
      timeframe := signal_data.timeframe
      signal_type := signal_data.signal_type
      entry_price := signal_data.entry_price
      take_profit := signal_data.take_profit
      stop_loss := signal_data.stop_loss
      confidence := signal_data.confidence
      risk_reward := signal_data.risk_reward
      current_price := some signal_data.current_price
      status := "new"
      is_main_signal := true
      created_at := now }
  match signal_data.correction with
  | none => base
  | some corr =>
    { base with
      correction_type := corr.direction
      correction_entry := corr.entry
      correction_tp := match corr.tp with
        | [] => none
        | t :: _ => some t
      correction_sl := corr.sl
      correction_confidence := corr.confidence }

/-- Outcome of upserting one observation: the update path with its
`updated` flag, or the create path. -/
inductive UpsertOutcome where
  | updated (changed : Bool)
  | created
  deriving Repr, DecidableEq

/-- Replace the first row accepted by `p` (the row `.first()` returned,
mutated in place by the SQLAlchemy session). -/
def replaceFirst (p : SignalRow → Bool) (newRow : SignalRow) :
    List SignalRow → List SignalRow
  | [] => []
  | r :: rest => if p r then newRow :: rest else r :: replaceFirst p newRow rest

/-- The per-observation body of `save_signals_batch`: look up an
existing fresh row; update it in place when found, otherwise append the
newly created row. -/
def processSignalData (store : List SignalRow) (now : Int) (signal_data : SignalData) :
    List SignalRow × UpsertOutcome :=
  match findExistingSignal store now signal_data with
  | some existing =>
    let (row, changed) := updateExistingSignal existing signal_data
    (replaceFirst (signalMatchesLookup now signal_data.ticker signal_data.timeframe) row store,
     .updated changed)
  | none => (store ++ [createNewSignal now signal_data], .created)

/-- The counters returned by `save_signals_batch`. -/
structure BatchResults where
  total_signals : Nat := 0
  saved_signals : Nat := 0
  updated_signals : Nat := 0
  errors : Nat := 0
  tickers_processed : Nat := 0
  deriving Repr, DecidableEq

/-- `SignalProcessor.save_signals_batch`: iterate the ticker map, skip
empty lists, and per observation either update (counted only when the
`updated` flag is true) or create (counted when creation returned a
row, which in this pure model it always does).  The per-item `except`
branch that increments `errors` and writes an `ErrorLog` row is
unreachable here because no modelled step raises. -/
def saveSignalsBatch (store : List SignalRow) (now : Int)
    (signals_data : List (String × List SignalData)) :
    List SignalRow × BatchResults :=
  signals_data.foldl
    (fun (acc : List SignalRow × BatchResults) entry =>
      let store := acc.fst
      let results := acc.snd
      let signals_list := entry.snd
      if signals_list.isEmpty then (store, results)
      else
        let results := { results with tickers_processed := results.tickers_processed + 1 }
        signals_list.foldl
          (fun (acc2 : List SignalRow × BatchResults) signal_data =>
            let store := acc2.fst
            let results := acc2.snd
            let results := { results with total_signals := results.total_signals + 1 }
            match processSignalData store now signal_data with
            | (store, .updated true) =>
              (store, { results with updated_signals := results.updated_signals + 1 })
            | (store, .updated false) => (store, results)
            | (store, .created) =>
              (store, { results with saved_signals := results.saved_signals + 1 }))
          (store, results))
    (store, {})

/-- The freshness-window match condition as the specification words it:
some persisted row with the same ticker and timeframe, created within
the last 30 minutes, whose status is not yet terminally resolved. -/
def existsFreshMatch (store : List SignalRow) (now : Int) (signal_data : SignalData) : Prop :=
  ∃ row ∈ store, row.ticker = signal_data.ticker ∧ row.timeframe = signal_data.timeframe ∧
    now - 30 ≤ row.created_at ∧ row.status ∈ activeStatuses

/-- The result dict of `SignalManager.fetch_and_process_all_signals`,
reduced to the field the scheduler ledger reads. -/
structure CycleResults where
  processing_time : ℚ := 0
  deriving Repr, DecidableEq

/-- What one invocation of `fetch_and_process_all_signals` did: returned
normally with results, or raised. -/
inductive CycleOutcome where
  | ok (results : CycleResults)
  | raised (msg : String)
  deriving Repr, DecidableEq

/-- The `last_run_result` dict of `SignalScheduler`: the success branch
stores `duration` and `results`, the failure branch stores `error`. -/
structure RunRecord where
  success : Bool
  start_time : Int
  end_time : Int
  duration : Option ℚ := none
  results : Option CycleResults := none
  error : Option String := none
  deriving Repr, DecidableEq

/-- The mutable attributes of `SignalScheduler` that make up the run
ledger, plus the busy flag `job_thread and job_thread.is_alive()`. -/
structure SchedulerState where
  isRunning : Bool := false
  jobThreadAlive : Bool := false
  totalRuns : Nat := 0
  successfulRuns : Nat := 0
  failedRuns : Nat := 0
  lastRunTime : Option Int := none
  lastRunResult : Option RunRecord := none
  deriving Repr, DecidableEq

/-- `SignalScheduler._execute_signal_processing`: the body of the worker
thread.  It stamps `last_run_time`, increments `total_runs`, runs the
cycle (abstracted into `outcome`), and records either a success or a
failure.  `job_start` and `job_end` stand for the two `utcnow()` calls. -/
def executeSignalProcessing (s : SchedulerState) (job_start job_end : Int)
    (outcome : CycleOutcome) : SchedulerState :=
  let s := { s with lastRunTime := some job_start, totalRuns := s.totalRuns + 1 }
  match outcome with
  | .ok results =>
    { s with
      lastRunResult := some
        { success := true, start_time := job_start, end_time := job_end,
          duration := some results.processing_time, results := some results }
      successfulRuns := s.successfulRuns + 1 }
  | .raised e =>
    { s with
      lastRunResult := some
        { success := false, start_time := job_start, end_time := job_end,
          error := some e }
      failedRuns := s.failedRuns + 1 }

/-- `SignalScheduler._run_signal_processing_job`: when the previous job
thread is still alive the trigger is skipped (state unchanged, no thread
started); otherwise a worker thread is started, which will run
`executeSignalProcessing`.  The returned flag says whether a thread was
started. -/
def runSignalProcessingJob (s : SchedulerState) : SchedulerState × Bool :=
  if s.jobThreadAlive then (s, false)
  else ({ s with jobThreadAlive := true }, true)

/-- The dict `run_manual` returns: `{'success': True, 'results': ...}`
or `{'success': False, 'error': ...}`. -/
inductive ManualRunResult where
  | ok (results : CycleResults)
  | err (msg : String)
  deriving Repr, DecidableEq

/-- `SignalScheduler.run_manual`: reject when a job thread is alive;
otherwise run one cycle directly (`fetch_and_process_all_signals`, which
touches no scheduler attribute — its effect is abstracted into
`outcome`) and report its result, catching exceptions.  The returned
`Bool` says whether a cycle was actually executed.  Note the body never
assigns any ledger attribute. -/
def runManual (s : SchedulerState) (outcome : CycleOutcome) :
    SchedulerState × ManualRunResult × Bool :=
  if s.jobThreadAlive then (s, .err "Уже выполняется другая задача", false)
  else
    match outcome with
    | .ok results => (s, .ok results, true)
    | .raised e => (s, .err e, true)

/-- The snapshot dict built by `SignalScheduler.get_status`. -/
structure StatusSnapshot where
  is_running : Bool
  total_runs : Nat
  successful_runs : Nat
  failed_runs : Nat
  success_rate : ℚ
  last_run_time : Option Int
  last_run_success : Option Bool
  next_run_time : Option Int
  deriving Repr, DecidableEq

/-- `SignalScheduler.get_status`: a read-only snapshot of the ledger.
`next_run` stands for `schedule.next_run()`, external to the ledger. -/
def getStatus (s : SchedulerState) (next_run : Option Int) : StatusSnapshot :=
  { is_running := s.isRunning
    total_runs := s.totalRuns
    successful_runs := s.successfulRuns
    failed_runs := s.failedRuns
    success_rate :=
      if 0 < s.totalRuns then (s.successfulRuns : ℚ) / (s.totalRuns : ℚ) * 100 else 0
    last_run_time := s.lastRunTime
    last_run_success := s.lastRunResult.map (fun r => r.success)
    next_run_time := next_run }

/-- Example observation: the dedup idempotence scenario of the
specification (BTC 1h LONG entry 50000 tp 52000 sl 48000 confidence 80,
no correction payload). -/
def btcObservation : SignalData :=
  { ticker := "BTC", timeframe := "1h", signal_type := "LONG",
    entry_price := 50000, take_profit := some 52000, stop_loss := some 48000,
    confidence := some 80, current_price := 50000 }

/-- Example observation used to exercise the create path of the upsert
engine. -/
def ethObservation : SignalData :=
  { ticker := "ETH", timeframe := "4h", signal_type := "SHORT",
    entry_price := 2000, take_profit := some 1900, stop_loss := some 2100,
    confidence := some 60, current_price := 2005 }

/-- The five-observation payload of the batch-partial-failure scenario
of the specification: three well-formed observations, one with direction
HOLD, and one missing `entry_price` (distinct timeframes, so no
observation deduplicates against another inside the batch). -/
def batchPartialFailurePayload : List RawVal :=
  [.vdict [("timeframe", .vstr "15m"), ("direction", .vstr "LONG"),
           ("entry", .vnum 100), ("tp", .vnum 110), ("sl", .vnum 90),
           ("confidence", .vnum 80)],
   .vdict [("timeframe", .vstr "1h"), ("direction", .vstr "SHORT"),
           ("entry", .vnum 200), ("tp", .vnum 190), ("sl", .vnum 210),
           ("confidence", .vnum 55)],
   .vdict [("timeframe", .vstr "4h"), ("direction", .vstr "LONG"),
           ("entry", .vnum 300)],
   .vdict [("timeframe", .vstr "1d"), ("direction", .vstr "HOLD"),
           ("entry", .vnum 400)],
   .vdict [("timeframe", .vstr "30m"), ("direction", .vstr "LONG"),
           ("tp", .vnum 120)]]

/-- The observations the parser extracts from
`batchPartialFailurePayload` (the `.ok` payload of
`parse_signal_response`). -/
def batchPartialFailureParsed : List SignalData :=
  match parseSignalResponse batchPartialFailurePayload "BTC" 0 with
  | .ok sigs => sigs
  | .error _ => []

/-- The fields of a persisted row that `_update_existing_signal` never
assigns: everything except `current_price`, `confidence` and the
correction sub-record. -/
def ImmutableFrame (a b : SignalRow) : Prop :=
  a.ticker = b.ticker ∧ a.timeframe = b.timeframe ∧ a.signal_type = b.signal_type ∧
  a.entry_price = b.entry_price ∧ a.take_profit = b.take_profit ∧
  a.stop_loss = b.stop_loss ∧ a.risk_reward = b.risk_reward ∧
  a.status = b.status ∧ a.is_main_signal = b.is_main_signal ∧
  a.created_at = b.created_at

/-! ## Helper lemmas -/

lemma pyUpper_of_long_short {t : String} (hty : t = "LONG" ∨ t = "SHORT") :
    pyUpper t = t := by
  rcases hty with h | h <;> subst h <;> rfl

lemma floatIfTruthy_some_of_ne {v : ℚ} (h : v ≠ 0) :
    floatIfTruthy (some v) = some v := by
  simp [floatIfTruthy, optTruthy, h]

lemma floatIfTruthy_eq_none {x : Option ℚ} (h : x = none ∨ x = some 0) :
    floatIfTruthy x = none := by
  rcases h with h | h <;> subst h <;> rfl

lemma checkStopLossExecution_iff {t : String} (p sl : ℚ)
    (hty : t = "LONG" ∨ t = "SHORT") :
    checkStopLossExecution t p sl = true ↔ slCondition t p sl := by
  rcases hty with h | h <;> subst h <;>
    simp [checkStopLossExecution, slCondition]

lemma checkTakeProfitExecution_iff {t : String} (p tp : ℚ)
    (hty : t = "LONG" ∨ t = "SHORT") :
    checkTakeProfitExecution t p tp = true ↔ tpCondition t p tp := by
  rcases hty with h | h <;> subst h <;>
    simp [checkTakeProfitExecution, tpCondition]

lemma checkSignalExecution_new (row : SignalRow) (price : ℚ)
    (hnew : row.status = "new") :
    checkSignalExecution row price =
      (if checkEntryExecution (pyUpper row.signal_type) price row.entry_price
       then "entry_hit" else "new") := by
  simp only [checkSignalExecution]
  rw [if_pos hnew]

lemma checkSignalExecution_exit (row : SignalRow) (price : ℚ)
    (hst : row.status = "entry_hit" ∨ row.status = "active") :
    checkSignalExecution row price =
      (if (match floatIfTruthy row.stop_loss with
           | some sl => checkStopLossExecution (pyUpper row.signal_type) price sl
           | none => false)
       then "sl_hit"
       else if (match floatIfTruthy row.take_profit with
           | some tp => checkTakeProfitExecution (pyUpper row.signal_type) price tp
           | none => false)
       then "tp_hit" else "active") := by
  have h1 : ¬ row.status = "new" := by rcases hst with h | h <;> simp [h]
  simp only [checkSignalExecution]
  rw [if_neg h1, if_pos hst]

lemma checkSignalExecution_other (row : SignalRow) (price : ℚ)
    (h1 : row.status ≠ "new") (h2 : row.status ≠ "entry_hit") (h3 : row.status ≠ "active") :
    checkSignalExecution row price = row.status := by
  simp only [checkSignalExecution]
  rw [if_neg h1, if_neg (by rintro (h | h) <;> [exact h2 h; exact h3 h])]

/-! ## C1: stop-loss priority in the exit check -/

/-- C1 counterexample: a SHORT signal in status `active` with
`stop_loss = 0` and `take_profit = 5` at price `3`.  The claimed
stop-loss condition (`3 >= 0`) and take-profit condition (`3 <= 5`) both
hold, yet `_check_signal_execution` returns `tp_hit`, not `sl_hit`:
the truthiness conversion `float(signal.stop_loss) if signal.stop_loss
else None` silently disables a zero stop-loss. -/
theorem c1_counterexample :
    slCondition "SHORT" 3 0 ∧ tpCondition "SHORT" 3 5 ∧
    checkSignalExecution
      { ticker := "BTC", timeframe := "1h", signal_type := "SHORT",
        entry_price := 4, take_profit := some 5, stop_loss := some 0,
        status := "active" } 3 = "tp_hit" := by
  refine ⟨Or.inr ⟨rfl, by norm_num⟩, Or.inr ⟨rfl, by norm_num⟩, ?_⟩
  rfl

/-- C1 (amended): for a LONG or SHORT signal in status `entry_hit` or
`active`, when both the stop-loss and take-profit conditions hold and
the stop-loss is nonzero, `_check_signal_execution` returns `sl_hit`,
never `tp_hit`; when neither condition holds it returns `active`; and a
missing — or zero, which Python truthiness treats as missing —
`stop_loss` or `take_profit` disables that exit check so it never
fires. -/
theorem c1_stop_priority (row : SignalRow) (price : ℚ)
    (hst : row.status = "entry_hit" ∨ row.status = "active")
    (hty : row.signal_type = "LONG" ∨ row.signal_type = "SHORT") :
    (∀ sl tp, row.stop_loss = some sl → sl ≠ 0 → row.take_profit = some tp →
      slCondition row.signal_type price sl → tpCondition row.signal_type price tp →
      checkSignalExecution row price = "sl_hit") ∧
    ((∀ sl, row.stop_loss = some sl → ¬ slCondition row.signal_type price sl) →
     (∀ tp, row.take_profit = some tp → ¬ tpCondition row.signal_type price tp) →
      checkSignalExecution row price = "active") ∧
    ((row.stop_loss = none ∨ row.stop_loss = some 0) →
      checkSignalExecution row price ≠ "sl_hit") ∧
    ((row.take_profit = none ∨ row.take_profit = some 0) →
      checkSignalExecution row price ≠ "tp_hit") := by
  rw [checkSignalExecution_exit row price hst, pyUpper_of_long_short hty]
  refine ⟨?_, ?_, ?_, ?_⟩
  · intro sl tp hsl hsl0 htp hslc htpc
    rw [hsl, floatIfTruthy_some_of_ne hsl0]
    have hb : checkStopLossExecution row.signal_type price sl = true :=
      (checkStopLossExecution_iff price sl hty).mpr hslc
    simp [hb]
  · intro hnsl hntp
    have hstop : (match floatIfTruthy row.stop_loss with
        | some sl => checkStopLossExecution row.signal_type price sl
        | none => false) = false := by
      cases hsl : row.stop_loss with
      | none => rw [floatIfTruthy_eq_none (Or.inl rfl)]
      | some sl =>
        by_cases hz : sl = 0
        · subst hz; rw [floatIfTruthy_eq_none (Or.inr rfl)]
        · rw [floatIfTruthy_some_of_ne hz]
          have hns := hnsl sl hsl
          cases hcb : checkStopLossExecution row.signal_type price sl with
          | false => exact hcb
          | true => exact absurd ((checkStopLossExecution_iff price sl hty).mp hcb) hns
    have htake : (match floatIfTruthy row.take_profit with
        | some tp => checkTakeProfitExecution row.signal_type price tp
        | none => false) = false := by
      cases htp : row.take_profit with
      | none => rw [floatIfTruthy_eq_none (Or.inl rfl)]
      | some tp =>
        by_cases hz : tp = 0
        · subst hz; rw [floatIfTruthy_eq_none (Or.inr rfl)]
        · rw [floatIfTruthy_some_of_ne hz]
          have hnt := hntp tp htp
          cases hcb : checkTakeProfitExecution row.signal_type price tp with
          | false => exact hcb
          | true => exact absurd ((checkTakeProfitExecution_iff price tp hty).mp hcb) hnt
    rw [hstop, htake]
    rfl
  · intro hdis
    rw [floatIfTruthy_eq_none hdis]
    cases (match floatIfTruthy row.take_profit with
        | some tp => checkTakeProfitExecution row.signal_type price tp
        | none => false) <;> simp
  · intro hdis
    rw [floatIfTruthy_eq_none hdis]
    cases (match floatIfTruthy row.stop_loss with
        | some sl => checkStopLossExecution row.signal_type price sl
        | none => false) <;> simp

/-- C1 witness: the pathological LONG signal of the specification
(`tp = 95`, `sl = 105`, both inverted) in status `active` at price
`100`: both exit conditions hold and the result is `sl_hit`. -/
theorem c1_stop_priority_witness :
    checkSignalExecution
      { ticker := "BTC", timeframe := "1h", signal_type := "LONG",
        entry_price := 100, take_profit := some 95, stop_loss := some 105,
        status := "active" } 100 = "sl_hit" :=
  (c1_stop_priority _ 100 (Or.inr rfl) (Or.inl rfl)).1 105 95 rfl
    (by norm_num) rfl (Or.inl ⟨rfl, by norm_num⟩) (Or.inl ⟨rfl, by norm_num⟩)

/-! ## C2: entry fill from status `new` -/

/-- C2: from status `new`, `_check_signal_execution` returns `entry_hit`
exactly when, for LONG, `current_price <= entry_price`, and for SHORT,
`current_price >= entry_price`; otherwise it returns `new`. -/
theorem c2_entry_fill (row : SignalRow) (price : ℚ) (hnew : row.status = "new") :
    (row.signal_type = "LONG" →
      (price ≤ row.entry_price → checkSignalExecution row price = "entry_hit") ∧
      (¬ price ≤ row.entry_price → checkSignalExecution row price = "new")) ∧
    (row.signal_type = "SHORT" →
      (row.entry_price ≤ price → checkSignalExecution row price = "entry_hit") ∧
      (¬ row.entry_price ≤ price → checkSignalExecution row price = "new")) := by
  rw [checkSignalExecution_new row price hnew]
  constructor
  · intro h
    rw [h]
    constructor
    · intro hle
      rw [if_pos (by simp [checkEntryExecution, pyUpper, hle])]
    · intro hle
      rw [if_neg (by simp [checkEntryExecution, pyUpper]; exact not_le.mp hle)]
  · intro h
    rw [h]
    constructor
    · intro hle
      rw [if_pos (by simp [checkEntryExecution, pyUpper, hle])]
    · intro hle
      rw [if_neg (by simp [checkEntryExecution, pyUpper]; exact not_le.mp hle)]

/-- C2 witness: a LONG signal with `entry = 100` in status `new` fills
at price exactly `100` (and a SHORT one fills at exactly `100` too). -/
theorem c2_entry_fill_witness :
    checkSignalExecution
      { ticker := "BTC", timeframe := "1h", signal_type := "LONG",
        entry_price := 100, status := "new" } 100 = "entry_hit" ∧
    checkSignalExecution
      { ticker := "BTC", timeframe := "1h", signal_type := "SHORT",
        entry_price := 100, status := "new" } 100 = "entry_hit" :=
  ⟨((c2_entry_fill _ 100 rfl).1 rfl).1 (by norm_num),
   ((c2_entry_fill _ 100 rfl).2 rfl).1 (by norm_num)⟩

/-! ## C3: the state machine only moves forward -/

/-- C3: for every signal row and price, the status returned by
`_check_signal_execution` never moves backward: from `new` only `new` or
`entry_hit`; from `entry_hit` or `active` only `active`, `tp_hit` or
`sl_hit`; every other status (`tp_hit`, `sl_hit`, `closed`, ...) is
returned unchanged. -/
theorem c3_forward_only (row : SignalRow) (price : ℚ) :
    (row.status = "new" →
      checkSignalExecution row price = "new" ∨
      checkSignalExecution row price = "entry_hit") ∧
    ((row.status = "entry_hit" ∨ row.status = "active") →
      checkSignalExecution row price = "active" ∨
      checkSignalExecution row price = "tp_hit" ∨
      checkSignalExecution row price = "sl_hit") ∧
    (row.status ≠ "new" → row.status ≠ "entry_hit" → row.status ≠ "active" →
      checkSignalExecution row price = row.status) := by
  refine ⟨?_, ?_, ?_⟩
  · intro hnew
    rw [checkSignalExecution_new row price hnew]
    cases checkEntryExecution (pyUpper row.signal_type) price row.entry_price <;> simp
  · intro hst
    rw [checkSignalExecution_exit row price hst]
    cases (match floatIfTruthy row.stop_loss with
        | some sl => checkStopLossExecution (pyUpper row.signal_type) price sl
        | none => false) <;>
      cases (match floatIfTruthy row.take_profit with
          | some tp => checkTakeProfitExecution (pyUpper row.signal_type) price tp
          | none => false) <;> simp
  · exact checkSignalExecution_other row price

/-- C3 witness: a row in the externally-set terminal status `closed` is
returned unchanged. -/
theorem c3_forward_only_witness :
    checkSignalExecution
      { ticker := "BTC", timeframe := "1h", signal_type := "LONG",
        entry_price := 100, status := "closed" } 42 = "closed" :=
  (c3_forward_only _ 42).2.2 (by decide) (by decide) (by decide)

/-! ## C9: the confidence annotator -/

/-- C9: the annotator returns a list of the same length and order where
each element is the input element plus a `warnings` list, and for an
element with known confidence `c`: a `high_confidence` warning is
present iff `c >= 90`, a `low_confidence` warning iff `c < 50`, and a
`potential_trend_conflict` warning iff `c > 95`; unknown confidence
yields no warnings; no other field changes (the whole original record
is carried in `data`).  The function is a total Lean function, hence
pure, deterministic and never failing. -/
theorem c9_annotator (signals : List SignalData) :
    (analyzeConfidenceWarnings signals).length = signals.length ∧
    (∀ i : Nat, ∀ s, signals[i]? = some s →
      ∃ a, (analyzeConfidenceWarnings signals)[i]? = some a ∧
        a.data = s ∧
        (s.confidence = none → a.warnings = []) ∧
        (∀ c, s.confidence = some c →
          ((∃ w ∈ a.warnings, w.wtype = "high_confidence") ↔ 90 ≤ c) ∧
          ((∃ w ∈ a.warnings, w.wtype = "low_confidence") ↔ c < 50) ∧
          ((∃ w ∈ a.warnings, w.wtype = "potential_trend_conflict") ↔ 95 < c))) := by
  refine ⟨by simp [analyzeConfidenceWarnings], ?_⟩
  intro i s hs
  refine ⟨analyzeOneSignal s, ?_, rfl, ?_, ?_⟩
  · simp [analyzeConfidenceWarnings, hs]
  · intro hnone
    simp [analyzeOneSignal, hnone]
  · intro c hc
    have hwarn : (analyzeOneSignal s).warnings =
        (if (90 : ℚ) ≤ c then
          [{ wtype := "high_confidence",
             message := "⚠️ Высокий confidence: " ++ toString c ++ "% (опасность)",
             severity := "warning" : Warning }]
         else if c < 50 then
          [{ wtype := "low_confidence",
             message := "⚠️ Слабый сигнал: " ++ toString c ++ "%",
             severity := "info" : Warning }]
         else []) ++
        (if (95 : ℚ) < c then
          [{ wtype := "potential_trend_conflict",
             message := "⚠️ Возможный сигнал против тренда (требует проверки)",
             severity := "warning" : Warning }]
         else []) := by
      simp only [analyzeOneSignal, hc, checkTrendConflict,
        HIGH_CONFIDENCE_THRESHOLD, LOW_CONFIDENCE_THRESHOLD, Option.getD_some]
      by_cases h95 : (95 : ℚ) < c <;> simp [h95]
    rw [hwarn]
    by_cases h90 : (90 : ℚ) ≤ c <;> by_cases h50 : c < 50 <;> by_cases h95 : (95 : ℚ) < c
    · linarith
    · linarith
    · refine ⟨?_, ?_, ?_⟩ <;> simp [h90, h50, h95] <;> linarith
    · refine ⟨?_, ?_, ?_⟩ <;> simp [h90, h50, h95] <;> linarith
    · linarith
    · refine ⟨?_, ?_, ?_⟩ <;> simp [h90, h50, h95] <;> linarith
    · linarith
    · refine ⟨?_, ?_, ?_⟩ <;> simp [h90, h50, h95] <;> linarith

/-- C9 witness: the AVAX example of the specification (confidence 91)
receives a `high_confidence` warning. -/
theorem c9_annotator_witness :
    ∃ a, (analyzeConfidenceWarnings
        [{ ticker := "AVAX", timeframe := "1h", signal_type := "LONG",
           entry_price := 20, take_profit := some 22, stop_loss := some 19,
           confidence := some 91, current_price := 20 }])[0]? = some a ∧
      ∃ w ∈ a.warnings, w.wtype = "high_confidence" := by
  obtain ⟨a, ha, _, _, hc⟩ :=
    (c9_annotator
      [{ ticker := "AVAX", timeframe := "1h", signal_type := "LONG",
         entry_price := 20, take_profit := some 22, stop_loss := some 19,
         confidence := some 91, current_price := 20 }]).2 0 _ rfl
  exact ⟨a, ha, ((hc 91 rfl).1).mpr (by norm_num)⟩

/-! ## Helper lemmas for the upsert engine -/

lemma signalMatchesLookup_iff (now : Int) (tk tf : String) (r : SignalRow) :
    signalMatchesLookup now tk tf r = true ↔
      (r.ticker = tk ∧ r.timeframe = tf ∧ now - 30 ≤ r.created_at ∧
       r.status ∈ activeStatuses) := by
  simp [signalMatchesLookup, and_assoc]

lemma findExistingSignal_isSome_iff (store : List SignalRow) (now : Int)
    (sd : SignalData) :
    (findExistingSignal store now sd).isSome ↔ existsFreshMatch store now sd := by
  simp only [findExistingSignal, List.find?_isSome, existsFreshMatch,
    signalMatchesLookup_iff]

lemma replaceFirst_length (p : SignalRow → Bool) (x : SignalRow) (l : List SignalRow) :
    (replaceFirst p x l).length = l.length := by
  induction l with
  | nil => rfl
  | cons r rest ih =>
    simp only [replaceFirst]
    split <;> simp [ih]

lemma createNewSignal_fields (now : Int) (sd : SignalData) :
    (createNewSignal now sd).status = "new" ∧
    (createNewSignal now sd).is_main_signal = true ∧
    (createNewSignal now sd).ticker = sd.ticker ∧
    (createNewSignal now sd).timeframe = sd.timeframe ∧
    (createNewSignal now sd).signal_type = sd.signal_type ∧
    (createNewSignal now sd).entry_price = sd.entry_price ∧
    (createNewSignal now sd).take_profit = sd.take_profit ∧
    (createNewSignal now sd).stop_loss = sd.stop_loss ∧
    (createNewSignal now sd).confidence = sd.confidence ∧
    (createNewSignal now sd).current_price = some sd.current_price ∧
    (createNewSignal now sd).created_at = now := by
  cases hc : sd.correction <;> simp [createNewSignal, hc]

lemma createNewSignal_correction_fields (t : Int) (sd : SignalData)
    (corr : CorrectionData) (h : sd.correction = some corr) :
    (createNewSignal t sd).correction_type = corr.direction ∧
    (createNewSignal t sd).correction_entry = corr.entry ∧
    (createNewSignal t sd).correction_tp =
      (match corr.tp with | [] => none | x :: _ => some x) ∧
    (createNewSignal t sd).correction_sl = corr.sl ∧
    (createNewSignal t sd).correction_confidence = corr.confidence := by
  simp [createNewSignal, h]

lemma immutableFrame_trans {a b c : SignalRow} (h1 : ImmutableFrame a b)
    (h2 : ImmutableFrame b c) : ImmutableFrame a c := by
  obtain ⟨p1, p2, p3, p4, p5, p6, p7, p8, p9, p10⟩ := h1
  obtain ⟨q1, q2, q3, q4, q5, q6, q7, q8, q9, q10⟩ := h2
  exact ⟨p1.trans q1, p2.trans q2, p3.trans q3, p4.trans q4, p5.trans q5,
    p6.trans q6, p7.trans q7, p8.trans q8, p9.trans q9, p10.trans q10⟩

lemma frame_updCurrentPrice (sd : SignalData) (st : SignalRow × Bool) :
    ImmutableFrame (updCurrentPrice sd st).1 st.1 := by
  simp only [updCurrentPrice]
  split <;> exact ⟨rfl, rfl, rfl, rfl, rfl, rfl, rfl, rfl, rfl, rfl⟩

lemma frame_updConfidence (sd : SignalData) (st : SignalRow × Bool) :
    ImmutableFrame (updConfidence sd st).1 st.1 := by
  simp only [updConfidence]
  cases h : sd.confidence with
  | none => exact ⟨rfl, rfl, rfl, rfl, rfl, rfl, rfl, rfl, rfl, rfl⟩
  | some c =>
    dsimp only
    split <;> exact ⟨rfl, rfl, rfl, rfl, rfl, rfl, rfl, rfl, rfl, rfl⟩

lemma frame_updCorrType (corr : CorrectionData) (st : SignalRow × Bool) :
    ImmutableFrame (updCorrType corr st).1 st.1 := by
  simp only [updCorrType]
  split <;> exact ⟨rfl, rfl, rfl, rfl, rfl, rfl, rfl, rfl, rfl, rfl⟩

lemma frame_updCorrEntry (corr : CorrectionData) (st : SignalRow × Bool) :
    ImmutableFrame (updCorrEntry corr st).1 st.1 := by
  simp only [updCorrEntry]
  split <;> exact ⟨rfl, rfl, rfl, rfl, rfl, rfl, rfl, rfl, rfl, rfl⟩

lemma frame_updCorrTp (corr : CorrectionData) (st : SignalRow × Bool) :
    ImmutableFrame (updCorrTp corr st).1 st.1 := by
  cases h : corr.tp with
  | nil =>
    simp only [updCorrTp, h]
    exact ⟨rfl, rfl, rfl, rfl, rfl, rfl, rfl, rfl, rfl, rfl⟩
  | cons x xs =>
    simp only [updCorrTp, h]
    split <;> exact ⟨rfl, rfl, rfl, rfl, rfl, rfl, rfl, rfl, rfl, rfl⟩

lemma frame_updCorrSl (corr : CorrectionData) (st : SignalRow × Bool) :
    ImmutableFrame (updCorrSl corr st).1 st.1 := by
  simp only [updCorrSl]
  split <;> exact ⟨rfl, rfl, rfl, rfl, rfl, rfl, rfl, rfl, rfl, rfl⟩

lemma frame_updCorrConf (corr : CorrectionData) (st : SignalRow × Bool) :
    ImmutableFrame (updCorrConf corr st).1 st.1 := by
  simp only [updCorrConf]
  split <;> exact ⟨rfl, rfl, rfl, rfl, rfl, rfl, rfl, rfl, rfl, rfl⟩

lemma frame_updateExistingSignal (existing : SignalRow) (sd : SignalData) :
    ImmutableFrame (updateExistingSignal existing sd).1 existing := by
  have base : ImmutableFrame
      (updConfidence sd (updCurrentPrice sd (existing, false))).1 existing :=
    immutableFrame_trans (frame_updConfidence sd _)
      (frame_updCurrentPrice sd (existing, false))
  unfold updateExistingSignal updCorrection
  cases h : sd.correction with
  | none => exact base
  | some corr =>
    exact immutableFrame_trans (frame_updCorrConf corr _)
      (immutableFrame_trans (frame_updCorrSl corr _)
        (immutableFrame_trans (frame_updCorrTp corr _)
          (immutableFrame_trans (frame_updCorrEntry corr _)
            (immutableFrame_trans (frame_updCorrType corr _) base))))

lemma created_fixed_updCurrentPrice (t : Int) (sd : SignalData) :
    updCurrentPrice sd (createNewSignal t sd, false) = (createNewSignal t sd, false) := by
  have h : (createNewSignal t sd).current_price = some sd.current_price :=
    (createNewSignal_fields t sd).2.2.2.2.2.2.2.2.2.1
  simp only [updCurrentPrice]
  rw [if_neg]
  rintro ⟨-, hne⟩
  exact hne h.symm

lemma created_fixed_updConfidence (t : Int) (sd : SignalData) :
    updConfidence sd (createNewSignal t sd, false) = (createNewSignal t sd, false) := by
  have h : (createNewSignal t sd).confidence = sd.confidence :=
    (createNewSignal_fields t sd).2.2.2.2.2.2.2.2.1
  simp only [updConfidence]
  cases hc : sd.confidence with
  | none => rfl
  | some c =>
    dsimp only
    rw [if_neg]
    rintro ⟨-, hne⟩
    exact hne (h.trans hc).symm

lemma created_fixed_updCorrection (t : Int) (sd : SignalData) :
    updCorrection sd (createNewSignal t sd, false) = (createNewSignal t sd, false) := by
  unfold updCorrection
  cases hc : sd.correction with
  | none => rfl
  | some corr =>
    obtain ⟨f1, f2, f3, f4, f5⟩ := createNewSignal_correction_fields t sd corr hc
    have h1 : updCorrType corr (createNewSignal t sd, false) =
        (createNewSignal t sd, false) := by
      simp only [updCorrType]
      rw [if_neg]
      intro hne
      exact hne f1.symm
    have h2 : updCorrEntry corr (createNewSignal t sd, false) =
        (createNewSignal t sd, false) := by
      simp only [updCorrEntry]
      rw [if_neg]
      intro hne
      exact hne f2.symm
    have h3 : updCorrTp corr (createNewSignal t sd, false) =
        (createNewSignal t sd, false) := by
      cases ht : corr.tp with
      | nil => simp only [updCorrTp, ht]
      | cons x xs =>
        simp only [updCorrTp, ht]
        rw [if_neg]
        intro hne
        rw [ht] at f3
        exact hne f3.symm
    have h4 : updCorrSl corr (createNewSignal t sd, false) =
        (createNewSignal t sd, false) := by
      simp only [updCorrSl]
      rw [if_neg]
      intro hne
      exact hne f4.symm
    have h5 : updCorrConf corr (createNewSignal t sd, false) =
        (createNewSignal t sd, false) := by
      simp only [updCorrConf]
      rw [if_neg]
      intro hne
      exact hne f5.symm
    show updCorrConf corr (updCorrSl corr (updCorrTp corr
      (updCorrEntry corr (updCorrType corr (createNewSignal t sd, false))))) =
      (createNewSignal t sd, false)
    rw [h1, h2, h3, h4, h5]

lemma updateExistingSignal_created (t : Int) (sd : SignalData) :
    updateExistingSignal (createNewSignal t sd) sd = (createNewSignal t sd, false) := by
  unfold updateExistingSignal
  rw [created_fixed_updCurrentPrice, created_fixed_updConfidence,
    created_fixed_updCorrection]

/-! ## C4: create-versus-merge decision of the upsert engine -/

/-- C4: the upsert engine takes the update path exactly when a persisted
row with the same `(ticker, timeframe)`, `created_at` within the last 30
minutes and a non-terminal status exists; the observation category is
not part of the match key; and when no such row exists a new row is
appended with `status = new`, `is_main_signal = true` and the
observation fields verbatim. -/
theorem c4_upsert_decision (store : List SignalRow) (now : Int) (sd : SignalData) :
    ((findExistingSignal store now sd).isSome ↔ existsFreshMatch store now sd) ∧
    (∀ cat, findExistingSignal store now { sd with signal_category := cat } =
      findExistingSignal store now sd) ∧
    (existsFreshMatch store now sd →
      ∃ changed, (processSignalData store now sd).2 = .updated changed ∧
        (processSignalData store now sd).1.length = store.length) ∧
    (¬ existsFreshMatch store now sd →
      (processSignalData store now sd).2 = .created ∧
      (processSignalData store now sd).1 = store ++ [createNewSignal now sd] ∧
      (createNewSignal now sd).status = "new" ∧
      (createNewSignal now sd).is_main_signal = true ∧
      (createNewSignal now sd).signal_type = sd.signal_type ∧
      (createNewSignal now sd).entry_price = sd.entry_price ∧
      (createNewSignal now sd).take_profit = sd.take_profit ∧
      (createNewSignal now sd).stop_loss = sd.stop_loss ∧
      (createNewSignal now sd).confidence = sd.confidence) := by
  refine ⟨findExistingSignal_isSome_iff store now sd, fun cat => rfl, ?_, ?_⟩
  · intro h
    obtain ⟨r, hr⟩ :=
      Option.isSome_iff_exists.mp ((findExistingSignal_isSome_iff store now sd).mpr h)
    rcases hupd : updateExistingSignal r sd with ⟨row, changed⟩
    refine ⟨changed, ?_, ?_⟩ <;>
      simp [processSignalData, hr, hupd, replaceFirst_length]
  · intro h
    have hnone : findExistingSignal store now sd = none := by
      rcases hq : findExistingSignal store now sd with _ | r
      · rfl
      · exact absurd ((findExistingSignal_isSome_iff store now sd).mp (by simp [hq])) h
    obtain ⟨h1, h2, h3, h4, h5, h6, h7, h8, h9, _, _⟩ := createNewSignal_fields now sd
    exact ⟨by simp [processSignalData, hnone], by simp [processSignalData, hnone],
      h1, h2, h5, h6, h7, h8, h9⟩

/-- C4 witness: on an empty store the ETH observation takes the create
path and the created row carries the observation fields verbatim. -/
theorem c4_upsert_decision_witness :
    (processSignalData [] 0 ethObservation).2 = .created ∧
    (processSignalData [] 0 ethObservation).1 =
      [] ++ [createNewSignal 0 ethObservation] ∧
    (createNewSignal 0 ethObservation).status = "new" ∧
    (createNewSignal 0 ethObservation).is_main_signal = true ∧
    (createNewSignal 0 ethObservation).signal_type = ethObservation.signal_type ∧
    (createNewSignal 0 ethObservation).entry_price = ethObservation.entry_price ∧
    (createNewSignal 0 ethObservation).take_profit = ethObservation.take_profit ∧
    (createNewSignal 0 ethObservation).stop_loss = ethObservation.stop_loss ∧
    (createNewSignal 0 ethObservation).confidence = ethObservation.confidence :=
  (c4_upsert_decision [] 0 ethObservation).2.2.2 (by simp [existsFreshMatch])

/-! ## C5: the merge touches only the mutable fields -/

/-- C5 counterexample: resubmitting the identical BTC observation within
the 30-minute window takes the update path but is NOT classified as an
update — `_update_existing_signal` finds nothing changed, returns
`False`, and `updated_signals` stays `0` (while `saved_signals` is also
`0`), so the second submission is counted neither as update nor as
create, contrary to the claim that it is classified as an update. -/
theorem c5_counterexample :
    (saveSignalsBatch (saveSignalsBatch [] 0 [("BTC", [btcObservation])]).1 10
        [("BTC", [btcObservation])]).2 =
      { total_signals := 1, saved_signals := 0, updated_signals := 0,
        errors := 0, tickers_processed := 1 } ∧
    (saveSignalsBatch (saveSignalsBatch [] 0 [("BTC", [btcObservation])]).1 10
        [("BTC", [btcObservation])]).1.length = 1 := by
  exact ⟨rfl, rfl⟩

/-- C5 (amended): the merge touches only `current_price`, `confidence`
and the correction sub-record — `entry_price`, `take_profit`,
`stop_loss` and `signal_type` (and identity and status fields) of the
matched row are unchanged; a repeat submission inside the window takes
the update path and creates no second row; but it is counted as an
update only when something actually changed: replaying the very
observation a row was created from yields the `updated = False` flag
(so an identical resubmission is counted neither as update nor as
create). -/
theorem c5_merge_effects :
    (∀ (existing : SignalRow) (sd : SignalData),
      (updateExistingSignal existing sd).1.ticker = existing.ticker ∧
      (updateExistingSignal existing sd).1.timeframe = existing.timeframe ∧
      (updateExistingSignal existing sd).1.signal_type = existing.signal_type ∧
      (updateExistingSignal existing sd).1.entry_price = existing.entry_price ∧
      (updateExistingSignal existing sd).1.take_profit = existing.take_profit ∧
      (updateExistingSignal existing sd).1.stop_loss = existing.stop_loss ∧
      (updateExistingSignal existing sd).1.risk_reward = existing.risk_reward ∧
      (updateExistingSignal existing sd).1.status = existing.status ∧
      (updateExistingSignal existing sd).1.is_main_signal = existing.is_main_signal ∧
      (updateExistingSignal existing sd).1.created_at = existing.created_at) ∧
    (∀ store now sd, existsFreshMatch store now sd →
      (processSignalData store now sd).2 ≠ .created ∧
      (processSignalData store now sd).1.length = store.length) ∧
    (∀ t sd, updateExistingSignal (createNewSignal t sd) sd =
      (createNewSignal t sd, false)) := by
  refine ⟨?_, ?_, ?_⟩
  · intro existing sd
    exact frame_updateExistingSignal existing sd
  · intro store now sd h
    obtain ⟨r, hr⟩ :=
      Option.isSome_iff_exists.mp ((findExistingSignal_isSome_iff store now sd).mpr h)
    rcases hupd : updateExistingSignal r sd with ⟨row, changed⟩
    constructor <;> simp [processSignalData, hr, hupd, replaceFirst_length]
  · intro t sd
    exact updateExistingSignal_created t sd

/-- C5 witness: a fresh matching row (the one created from the BTC
observation at time 0, looked up at time 10) takes the update path and
the store keeps a single row. -/
theorem c5_merge_effects_witness :
    (processSignalData [createNewSignal 0 btcObservation] 10 btcObservation).2 ≠
      .created ∧
    (processSignalData [createNewSignal 0 btcObservation] 10 btcObservation).1.length =
      1 :=
  c5_merge_effects.2.1 [createNewSignal 0 btcObservation] 10 btcObservation
    ⟨createNewSignal 0 btcObservation, by decide⟩

/-! ## C6: HOLD observations -/

/-- C6 failing input: a raw observation with direction HOLD and entry
price 100.  `_parse_single_signal` accepts it (HOLD is in its allowed
list) and `save_signals_batch` persists it as a row with
`signal_type = 'HOLD'`, counted as created — contrary to the claim that
HOLD observations are never persisted. -/
theorem c6_hold_persisted :
    parseSingleSignal [("direction", .vstr "HOLD"), ("entry", .vnum 100)]
        "BTC" "1h" 0 =
      some { ticker := "BTC", timeframe := "1h", signal_type := "HOLD",
             entry_price := 100, current_price := 100 } ∧
    (saveSignalsBatch [] 0
        [("BTC", [{ ticker := "BTC", timeframe := "1h", signal_type := "HOLD",
                    entry_price := 100, current_price := 100 : SignalData }])]).1 =
      [{ ticker := "BTC", timeframe := "1h", signal_type := "HOLD",
         entry_price := 100, current_price := some 100 : SignalRow }] ∧
    (saveSignalsBatch [] 0
        [("BTC", [{ ticker := "BTC", timeframe := "1h", signal_type := "HOLD",
                    entry_price := 100, current_price := 100 : SignalData }])]).2 =
      { total_signals := 1, saved_signals := 1, updated_signals := 0,
        errors := 0, tickers_processed := 1 } :=
  ⟨rfl, rfl, rfl⟩

/-! ## C7: per-item rejection of malformed observations -/

/-- C7 counterexample: the batch of five observations (one HOLD, one
missing `entry_price`).  The parser silently drops the one without an
entry before the batch ever sees it, and the HOLD one is created like
any other, so the counts are `{total: 4, created: 4, updated: 0,
errors: 0}` — not the claimed `{total: 5, created: 3, updated: 0,
errors: 1}`. -/
theorem c7_counterexample :
    parseSignalResponse batchPartialFailurePayload "BTC" 0 =
      .ok batchPartialFailureParsed ∧
    batchPartialFailureParsed.length = 4 ∧
    (saveSignalsBatch [] 0 [("BTC", batchPartialFailureParsed)]).2 =
      { total_signals := 4, saved_signals := 4, updated_signals := 0,
        errors := 0, tickers_processed := 1 } ∧
    (saveSignalsBatch [] 0 [("BTC", batchPartialFailureParsed)]).2.total_signals ≠ 5 ∧
    (saveSignalsBatch [] 0 [("BTC", batchPartialFailureParsed)]).2.errors ≠ 1 :=
  ⟨rfl, rfl, rfl, by decide, by decide⟩

/-- C7 (amended): a malformed observation is rejected at parse time,
before the batch: `_parse_single_signal` returns `None` for a missing
(or zero, by truthiness) `entry_price`, so the observation reaches
neither the `total` nor the `errors` count and no `ErrorLog` row is
written for it; a direction outside {LONG, SHORT, HOLD} cannot occur
because `_normalize_signal_type` maps every value into that set; and
dropping such an item leaves the parsing of the remaining observations
unchanged, so the five-observation example yields `{total: 4,
created: 4, updated: 0, errors: 0}`. -/
theorem c7_malformed_rejected :
    (∀ (data : RawDict) (ticker timeframe : String) (now : Int),
      extractNumericField data ["entry", "entry_price", "price"] = none →
      parseSingleSignal data ticker timeframe now = none) ∧
    (∀ (data : RawDict) (ticker timeframe : String) (now : Int),
      extractNumericField data ["entry", "entry_price", "price"] = some 0 →
      parseSingleSignal data ticker timeframe now = none) ∧
    (∀ raw, normalizeSignalType raw = "LONG" ∨ normalizeSignalType raw = "SHORT" ∨
      normalizeSignalType raw = "HOLD") ∧
    (∀ (items1 items2 : List RawVal) (bad : RawVal) (ticker : String) (now : Int),
      itemSignals bad ticker now = [] →
      (items1 ++ [bad] ++ items2).foldl
          (fun signals item => signals ++ itemSignals item ticker now) [] =
        (items1 ++ items2).foldl
          (fun signals item => signals ++ itemSignals item ticker now) []) := by
  refine ⟨?_, ?_, ?_, ?_⟩
  · intro data ticker timeframe now h
    simp [parseSingleSignal, h, optTruthy]
  · intro data ticker timeframe now h
    simp [parseSingleSignal, h, optTruthy]
  · intro raw
    simp only [normalizeSignalType]
    split_ifs <;> simp
  · intro items1 items2 bad ticker now hbad
    simp [List.foldl_append, List.foldl_cons, List.foldl_nil, hbad]

/-- C7 witness: the payload item with no entry key contributes nothing,
and removing it from the five-item payload leaves the other four parsed
observations untouched. -/
theorem c7_malformed_rejected_witness :
    parseSingleSignal [("timeframe", .vstr "30m"), ("direction", .vstr "LONG"),
        ("tp", .vnum 120)] "BTC" "30m" 0 = none ∧
    (([.vdict [("timeframe", .vstr "15m"), ("direction", .vstr "LONG"),
              ("entry", .vnum 100)]] : List RawVal) ++
      ([.vdict [("timeframe", .vstr "30m"), ("direction", .vstr "LONG"),
               ("tp", .vnum 120)]] : List RawVal) ++
      ([.vdict [("timeframe", .vstr "4h"), ("direction", .vstr "SHORT"),
               ("entry", .vnum 300)]] : List RawVal)).foldl
        (fun signals item => signals ++ itemSignals item "BTC" 0) [] =
      (([.vdict [("timeframe", .vstr "15m"), ("direction", .vstr "LONG"),
                ("entry", .vnum 100)]] : List RawVal) ++
        ([.vdict [("timeframe", .vstr "4h"), ("direction", .vstr "SHORT"),
                 ("entry", .vnum 300)]] : List RawVal)).foldl
        (fun signals item => signals ++ itemSignals item "BTC" 0) [] :=
  ⟨c7_malformed_rejected.1 _ "BTC" "30m" 0 rfl,
   c7_malformed_rejected.2.2.2 _ _ _ "BTC" 0 rfl⟩

/-! ## C8: the concurrency guard of the scheduler -/

/-- C8: while a job thread is alive, the scheduled trigger returns
without starting a second thread and `run_manual` returns the
already-running error without executing a cycle; and each actually
executed (thread-dispatched) cycle increments `total_runs` exactly
once.  (A manual cycle bypasses the ledger entirely — see the C10
theorem.) -/
theorem c8_concurrency_guard :
    (∀ s : SchedulerState, s.jobThreadAlive = true →
      runSignalProcessingJob s = (s, false)) ∧
    (∀ (s : SchedulerState) (o : CycleOutcome), s.jobThreadAlive = true →
      runManual s o = (s, .err "Уже выполняется другая задача", false)) ∧
    (∀ (s : SchedulerState) (t1 t2 : Int) (o : CycleOutcome),
      (executeSignalProcessing s t1 t2 o).totalRuns = s.totalRuns + 1) := by
  refine ⟨?_, ?_, ?_⟩
  · intro s h
    simp [runSignalProcessingJob, h]
  · intro s o h
    simp [runManual, h]
  · intro s t1 t2 o
    cases o <;> rfl

/-- C8 witness: a state whose worker thread is alive rejects both the
scheduled trigger and the manual run, and one executed cycle moves
`total_runs` from 0 to 1. -/
theorem c8_concurrency_guard_witness :
    runSignalProcessingJob { jobThreadAlive := true } =
      ({ jobThreadAlive := true }, false) ∧
    runManual { jobThreadAlive := true } (.ok {}) =
      ({ jobThreadAlive := true }, .err "Уже выполняется другая задача", false) ∧
    (executeSignalProcessing { jobThreadAlive := true } 0 1 (.ok {})).totalRuns = 1 :=
  ⟨c8_concurrency_guard.1 _ rfl, c8_concurrency_guard.2.1 _ _ rfl,
   c8_concurrency_guard.2.2 _ 0 1 _⟩

/-! ## C10: run_manual never touches the run ledger -/

/-- C10: whether the manually run cycle succeeds or raises (and also
when it is rejected), `run_manual` leaves the whole scheduler state —
in particular `total_runs`, `successful_runs`, `failed_runs`,
`last_run_time` and `last_run_result` — unchanged, so the `get_status`
snapshot only ever reflects thread-dispatched cycle executions. -/
theorem c10_run_manual_frame (s : SchedulerState) (o : CycleOutcome)
    (next_run : Option Int) :
    (runManual s o).1 = s ∧
    (runManual s o).1.totalRuns = s.totalRuns ∧
    (runManual s o).1.successfulRuns = s.successfulRuns ∧
    (runManual s o).1.failedRuns = s.failedRuns ∧
    (runManual s o).1.lastRunTime = s.lastRunTime ∧
    (runManual s o).1.lastRunResult = s.lastRunResult ∧
    getStatus (runManual s o).1 next_run = getStatus s next_run := by
  have h : (runManual s o).1 = s := by
    unfold runManual
    split_ifs
    · rfl
    · cases o <;> rfl
  exact ⟨h, by rw [h], by rw [h], by rw [h], by rw [h], by rw [h], by rw [h]⟩

end Cryptomaxa
